import Mathlib

/-!
Verification development for the karllm-setup provisioning scripts
(`setup_clean.py` and `setup.py`).

The Python sources are shallowly embedded: the filesystem is an explicit
association list from paths to contents, observable side effects (printed
lines, invoked subprocesses) are collected in effect lists, and fallible
operations return `Except`/`Outcome` values.  Functions keep the names of
the Python functions they embed; where both scripts define a textually
identical function (`generate_keypair`, `write_config_file`,
`get_username`) a single definition stands for both, and where the two
scripts differ the embeddings carry a `_clean` / `_py` suffix for
`setup_clean.py` / `setup.py` respectively.

The file is organized as definitions first, then theorems.
-/

namespace KarllmSetup

/-! ## Definitions -/

/-! ### String helpers (models of Python `str` operations) -/

/-- Model of Python `str.strip()`: drop leading and trailing whitespace. -/
def pyStrip (s : String) : String :=
  String.mk (((s.data.dropWhile Char.isWhitespace).reverse.dropWhile
    Char.isWhitespace).reverse)

/-- `listPrefixOf pat l` is true when `pat` is a prefix of `l`. -/
def listPrefixOf : List Char → List Char → Bool
  | [], _ => true
  | _ :: _, [] => false
  | a :: as, b :: bs => a == b && listPrefixOf as bs

/-- `listContainsSub pat l` is true when `pat` occurs as a contiguous
sublist of `l`. -/
def listContainsSub (pat : List Char) : List Char → Bool
  | [] => listPrefixOf pat []
  | s@(_ :: rest) => listPrefixOf pat s || listContainsSub pat rest

/-- Model of the Python substring test `pat in s`. -/
def strContainsSub (s pat : String) : Bool :=
  listContainsSub pat.data s.data

/-- Model of Python `str(x)` applied to an `Optional` command string:
`None` renders as the string `"None"` (as in an f-string). -/
def pyStr : Option String → String
  | some s => s
  | none => "None"

/-! ### Observable effects and outcomes -/

/-- An observable side effect of a run: a printed line, or an invoked
subprocess (`subprocess.run` / `subprocess.check_call`) with its argv. -/
inductive Effect where
  | print (line : String)
  | runCmd (argv : List String)
  deriving Repr, DecidableEq

/-- Whether an effect is a subprocess invocation. -/
def Effect.isRunCmd : Effect → Bool
  | .runCmd _ => true
  | .print _ => false

/-- Termination status of a callable: normal return, `sys.exit` with a
process exit code and message, or an uncaught Python exception. -/
inductive Outcome where
  | ok
  | exited (code : Nat) (msg : String)
  | raised (exn : String)
  deriving Repr, DecidableEq

/-! ### Filesystem model -/

/-- The filesystem visible to the scripts: an association list from paths
to file contents (later writes shadow earlier ones). -/
structure FS where
  files : List (String × String)
  deriving Repr, DecidableEq

/-- Model of `Path.exists()`. -/
def FS.exists (fs : FS) (p : String) : Bool :=
  (fs.files.lookup p).isSome

/-- Read a file's contents, `none` if absent. -/
def FS.read (fs : FS) (p : String) : Option String :=
  fs.files.lookup p

/-- Write (create or overwrite) a file. -/
def FS.write (fs : FS) (p c : String) : FS :=
  ⟨(p, c) :: fs.files⟩

/-! ### Identity Generator: `generate_keypair` (identical in both scripts;
`setup_clean.py` lines 227-243, `setup.py` lines 241-257).

The two `openssl` subprocesses produce key material chosen by the external
tool; the embedding takes that externally produced content as the
parameters `freshPriv` / `freshPub`. -/

/-- The deterministic private-key path `config_dir / f"{uname}.priv"`. -/
def priv_key_path (config_dir uname : String) : String :=
  config_dir ++ "/" ++ uname ++ ".priv"

/-- The deterministic public-key path `config_dir / f"{uname}.pub"`. -/
def pub_key_path (config_dir uname : String) : String :=
  config_dir ++ "/" ++ uname ++ ".pub"

/-- Embedding of `generate_keypair(config_dir, uname)`: returns the pair
of key paths, the resulting filesystem, and the emitted effects. -/
def generate_keypair (fs : FS) (config_dir uname freshPriv freshPub : String) :
    (String × String) × FS × List Effect :=
  let priv_path := priv_key_path config_dir uname
  let pub_path := pub_key_path config_dir uname
  if fs.exists priv_path && fs.exists pub_path then
    ((priv_path, pub_path), fs, [Effect.print "✔ Keypair already exists."])
  else
    let fs1 := fs.write priv_path freshPriv
    let fs2 := fs1.write pub_path freshPub
    ((priv_path, pub_path), fs2,
      [Effect.runCmd ["openssl", "genpkey", "-algorithm", "ED25519", "-out", priv_path],
       Effect.runCmd ["openssl", "pkey", "-in", priv_path, "-pubout", "-out", pub_path],
       Effect.print ("✔ ED25519 keypair generated: " ++ priv_path ++ ", " ++ pub_path)])

/-! ### Config Persister: `write_config_file` (identical in both scripts;
`setup_clean.py` lines 211-224, `setup.py` lines 225-238). -/

/-- The record `yaml.dump` serializes for
`{"username": uname, "secret": str(priv), "saveInteraction": True}`
(PyYAML sorts keys alphabetically by default). -/
def yaml_dump_config (uname secret : String) : String :=
  "saveInteraction: true\n" ++ "secret: " ++ secret ++ "\n"
    ++ "username: " ++ uname ++ "\n"

/-- Embedding of `write_config_file(config_path, uname, priv_key_path)`. -/
def write_config_file (fs : FS) (config_path uname priv_key : String) :
    FS × List Effect :=
  if fs.exists config_path then
    (fs, [Effect.print ("✔ Config file already exists at " ++ config_path)])
  else
    (fs.write config_path (yaml_dump_config uname priv_key),
     [Effect.print ("✔ Config written to " ++ config_path)])

/-! ### Platform Descriptor -/

/-- The OS family, as decided by `platform.system()` at module load
(`IS_WINDOWS` / `IS_MAC` / `IS_LINUX`, with anything else unsupported). -/
inductive OSFamily where
  | windows
  | macos
  | linux
  | other
  deriving Repr, DecidableEq

/-- The read-only platform facts a run observes: the OS family, the
contents of `/etc/os-release` (`none` when opening it raises
`FileNotFoundError`), `platform.platform()` and `platform.machine()`. -/
structure Platform where
  os : OSFamily
  osRelease : Option String
  platformString : String
  machine : String
  deriving Repr, DecidableEq

/-- Embedding of `get_linux_package_manager` (`setup_clean.py` lines
76-99).  On the `FileNotFoundError` path the handler evaluates
`platform.platform().contains("android")`; Python `str` has no method
`contains`, so that expression raises `AttributeError`, and an exception
raised inside an `except` handler is not caught by the sibling
`except Exception` clause of the same `try` — the embedding returns an
error there.  (The `except Exception` branch, reached for other read
errors of an existing file, returns `"unknown"` and is not modelled
separately: `osRelease = some content` models a successful read.) -/
def get_linux_package_manager (p : Platform) : Except String String :=
  match p.osRelease with
  | some content =>
    let os_release := content.toLower
    if strContainsSub os_release "arch" then Except.ok "pacman"
    else if strContainsSub os_release "debian" || strContainsSub os_release "ubuntu" then
      Except.ok "apt"
    else if strContainsSub os_release "fedora" || strContainsSub os_release "rhel" then
      Except.ok "dnf"
    else if strContainsSub os_release "alpine" then Except.ok "apk"
    else Except.ok "unknown"
  | none => Except.error "AttributeError: str object has no attribute contains"

/-! ### Dependency Verifier: `assert_commands_exist`
(`setup_clean.py` lines 102-188). -/

/-- `REQUIRED_COMMANDS` (`setup_clean.py` line 64). -/
def REQUIRED_COMMANDS : List String := ["git", "python3", "uv", "openssl"]

/-- The `install_cmds` table of the `pacman` branch. -/
def pacman_install_cmds : List (String × String) :=
  [("git", "sudo pacman -S git"), ("rust", "sudo pacman -S rust"),
   ("openssl", "sudo pacman -S openssl"), ("python3", "sudo pacman -S python")]

/-- The `install_cmds` table of the `apt` branch. -/
def apt_install_cmds : List (String × String) :=
  [("git", "sudo apt install git"), ("rust", "sudo apt install rust"),
   ("openssl", "sudo apt install openssl"), ("python3", "sudo apt install python3")]

/-- The `install_cmds` table of the `dnf` branch. -/
def dnf_install_cmds : List (String × String) :=
  [("git", "sudo dnf install git"), ("rust", "sudo dnf install rust"),
   ("openssl", "sudo dnf install openssl"), ("python3", "sudo dnf install python3")]

/-- The `install_cmds` table of the `apk` branch. -/
def apk_install_cmds : List (String × String) :=
  [("git", "apk add git"), ("rust", "apk add rust"),
   ("openssl", "apk add openssl"), ("python3", "apk add python3")]

/-- The `install_cmds` table of the `pkg` (Termux) branch. -/
def pkg_install_cmds : List (String × String) :=
  [("git", "pkg install git"), ("rust", "pkg install rust"),
   ("openssl", "pkg install openssl"), ("openssh", "pkg install openssh"),
   ("python3", "pkg install python3")]

/-- The `install_cmds` table of the macOS branch. -/
def brew_install_cmds : List (String × String) :=
  [("git", "brew install git"), ("openssl", "brew install openssl"),
   ("python3", "brew install python@3.12")]

/-- The `install_cmds` table of the Windows branch. -/
def winget_install_cmds : List (String × String) :=
  [("git", "winget install --id Git.Git -e"),
   ("openssl", "winget install --id ShiningLight.OpenSSL -e"),
   ("python3", "winget install --id Python.Python.3.12 -e")]

/-- The remediation line printed for one missing command (the final loop
of `assert_commands_exist`): `uv` is special-cased, otherwise the
platform's `install_cmds` table is consulted, falling back to
"install manually". -/
def remediation_line (install_cmds : List (String × String)) (cmd : String) : String :=
  if cmd == "uv" then "   - uv: pip install --user uv  # or pipx install uv"
  else
    match install_cmds.lookup cmd with
    | some inst => "   - " ++ cmd ++ ": " ++ inst
    | none => "   - " ++ cmd ++ ": install manually"

/-- The lines printed by `assert_commands_exist` together with its
termination status.  `which cmd` models `shutil.which(cmd) is not None`.
The function only ever prints; it never spawns a subprocess. -/
def assert_commands_exist_lines (which : String → Bool) (p : Platform) :
    List String × Outcome :=
  let missing := REQUIRED_COMMANDS.filter (fun c => !which c)
  if missing.isEmpty then
    (["✔ Required system tools are installed."], Outcome.ok)
  else
    let header :=
      "\n❌ The following required system tools are missing:"
        :: missing.map (fun c => "   - " ++ c)
        ++ ["\n🔧 To install them:"]
    match p.os with
    | OSFamily.linux =>
      match get_linux_package_manager p with
      | Except.error e => (header, Outcome.raised e)
      | Except.ok pkg =>
        let detected := "🟢 Linux detected (" ++ pkg ++ ")"
        let branch :=
          if pkg == "pacman" then ([detected], pacman_install_cmds)
          else if pkg == "apt" then ([detected], apt_install_cmds)
          else if pkg == "dnf" then ([detected], dnf_install_cmds)
          else if pkg == "apk" then ([detected], apk_install_cmds)
          else if pkg == "pkg" then ([detected], pkg_install_cmds)
          else ([detected, "⚠ Unsupported or unknown Linux distro."], [])
        (header ++ branch.1 ++ missing.map (remediation_line branch.2),
         Outcome.exited 1 "\n💥 Aborting setup due to missing tools.\n")
    | OSFamily.macos =>
      (header ++ ["🍎 macOS detected. If you have Homebrew:"]
         ++ missing.map (remediation_line brew_install_cmds),
       Outcome.exited 1 "\n💥 Aborting setup due to missing tools.\n")
    | OSFamily.windows =>
      (header ++ ["🪟 Windows detected. Try one of the following:",
                  "🟡 Or use Chocolatey: https://chocolatey.org/install"]
         ++ missing.map (remediation_line winget_install_cmds),
       Outcome.exited 1 "\n💥 Aborting setup due to missing tools.\n")
    | OSFamily.other =>
      (header ++ ["⚠ Unknown platform — please install manually."]
         ++ missing.map (remediation_line []),
       Outcome.exited 1 "\n💥 Aborting setup due to missing tools.\n")

/-- Embedding of `assert_commands_exist`: all its effects are prints. -/
def assert_commands_exist (which : String → Bool) (p : Platform) :
    List Effect × Outcome :=
  ((assert_commands_exist_lines which p).1.map Effect.print,
   (assert_commands_exist_lines which p).2)

/-! ### Script-level bootstrap: `bootstrap_dependencies` -/

/-- Embedding of `bootstrap_dependencies` of `setup_clean.py` (lines
12-28): when the `uv` CLI is not on the path it invokes
`subprocess.check_call([sys.executable, "-m", "pip", "install", "uv"])`;
`pyexe` models `sys.executable`. -/
def bootstrap_dependencies_clean (pyexe : String) (which : String → Bool) :
    List Effect :=
  (if !which "uv" then
     [Effect.print "⏳ Installing required CLI tool: uv...",
      Effect.runCmd [pyexe, "-m", "pip", "install", "uv"]]
   else [])
  ++ [Effect.print "✔ Script-level dependencies verified."]

/-- `system_deps` of `setup.py` (lines 12-17). -/
def system_deps : List (String × List String) :=
  [("git", ["git"]), ("openssl", ["openssl", "openssl-tool"]),
   ("cargo", ["rust"]), ("uv", ["uv"])]

/-- Embedding of `get_linux_distro` of `setup.py` (lines 28-37).  Note it
returns the entire lowercased `/etc/os-release` contents (not a distro
token), `"android"` for Termux, and `"unknown"` when any exception occurs
while reading the file. -/
def get_linux_distro (p : Platform) : String :=
  if strContainsSub p.platformString "android" && (p.machine == "aarch64") then
    "android"
  else
    match p.osRelease with
    | some content => content.toLower
    | none => "unknown"

/-- Embedding of `get_bootstrap_cmd` of `setup.py` (lines 39-67): printed
lines paired with the returned value; `none` models the implicit Python
`None` return of the unrecognized-Linux branch. -/
def get_bootstrap_cmd (p : Platform) : List String × Option String :=
  match p.os with
  | OSFamily.windows => ([], some "Install-Package -Name ")
  | OSFamily.macos => ([], some "brew install ")
  | OSFamily.linux =>
    let distro := get_linux_distro p
    if distro == "arch" then ([], some "sudo pacman -S ")
    else if distro == "debian" then ([], some "sudo apt install ")
    else if distro == "fedora" then ([], some "sudo dnf install ")
    else if distro == "alpine" then ([], some "apk add ")
    else if distro == "centos" then ([], some "sudo yum install ")
    else if distro == "android" then ([], some "pkg install ")
    else
      (["❌ Unsupported Linux distro. Please install the missing dependencies manually."],
       none)
  | OSFamily.other =>
    (["❌ Unsupported distro. Please install the missing dependencies manually."],
     some "unknown")

/-- The lines printed by `bootstrap_dependencies` of `setup.py` (lines
70-90) with its returned `is_all_good` flag.  The install call is
commented out in the source: the function only prints guidance. -/
def bootstrap_dependencies_py_lines (which : String → Bool) (p : Platform) :
    List String × Bool :=
  let cmd := get_bootstrap_cmd p
  let cmdStr := pyStr cmd.2
  let lines := (system_deps.map (fun d =>
      if which d.1 then []
      else ("Required system tool not found: " ++ d.1
              ++ ". Unablae to install. Please run the following command(s) manually:")
        :: d.2.map (fun req =>
              "🔧 Instal " ++ req ++ " with: \"" ++ cmdStr ++ req ++ "\""))).flatten
  let is_all_good := system_deps.all (fun d => which d.1)
  (cmd.1 ++ lines ++ (if is_all_good then ["✔ System tools verified."] else []),
   is_all_good)

/-- Embedding of `bootstrap_dependencies` of `setup.py`: all effects are
prints. -/
def bootstrap_dependencies_py (which : String → Bool) (p : Platform) :
    List Effect × Bool :=
  ((bootstrap_dependencies_py_lines which p).1.map Effect.print,
   (bootstrap_dependencies_py_lines which p).2)

/-! ### Username acquisition: `get_username` (identical in both scripts;
`setup_clean.py` lines 282-298, `setup.py` lines 289-305). -/

/-- Embedding of `re.fullmatch(r"[A-Za-z0-9_]+", s) is not None`:
non-empty, every character an ASCII letter, digit, or underscore. -/
def username_re_matches (s : String) : Bool :=
  !s.data.isEmpty && s.data.all (fun c => c.isAlphanum || c == '_')

/-- The interactive `while True` re-prompt loop of `get_username`: `stdin`
is the stream of lines the user enters; exhausting it models `input()`
raising `EOFError`. -/
def interactive_loop : List String → Except String String
  | [] => Except.error "EOFError"
  | line :: rest =>
    let uname := pyStrip line
    if username_re_matches uname then Except.ok uname
    else interactive_loop rest

/-- Embedding of `get_username()`: `argv` models `sys.argv`.  A present
`--username` flag with a following value is stripped and validated,
aborting via `sys.exit` on mismatch; a flag with no following value, or no
flag at all, falls through to the interactive loop. -/
def get_username (argv : List String) (stdin : List String) :
    Except String String :=
  if argv.contains "--username" then
    let idx := argv.indexOf "--username"
    if idx + 1 < argv.length then
      let uname := pyStrip (argv.getD (idx + 1) "")
      if username_re_matches uname then Except.ok uname
      else Except.error "✘ Invalid username provided via CLI."
    else interactive_loop stdin
  else interactive_loop stdin

/-! ### Orchestrator call order -/

/-- The functions `main` of `setup_clean.py` (lines 301-317) calls, in
source order.  (`normalize_env` runs at import time, before `main`.) -/
def main_calls_setup_clean : List String :=
  ["bootstrap_dependencies", "assert_env_vars", "assert_commands_exist",
   "ensure_python_version", "get_username", "ensure_config_dir",
   "generate_keypair", "write_config_file", "clone_repo", "setup_venv",
   "install_requirements"]

/-- The functions `main` of `setup.py` (lines 308-324) calls, in source
order. -/
def main_calls_setup : List String :=
  ["normalize_env", "bootstrap_dependencies", "assert_env_vars",
   "clone_repo", "setup_venv", "install_requirements", "get_username",
   "ensure_config_dir", "generate_keypair", "write_config_file"]

/-! ### Top-level guard (the `__main__` block of both scripts) -/

/-- How a call of `main()` can end: normal return, `KeyboardInterrupt`
propagating out, or `SystemExit` with a process exit code. -/
inductive PyResult where
  | finished
  | interrupt
  | systemExit (code : Nat)
  deriving Repr, DecidableEq

/-- Embedding of the `__main__` block (`setup_clean.py` lines 320-324,
`setup.py` lines 327-332): `try: main() except KeyboardInterrupt:
print(...)`.  Returns the effects of the handler and the process exit
code; falling off the end of the script exits with status 0. -/
def main_guard (r : PyResult) : List Effect × Nat :=
  match r with
  | PyResult.finished => ([], 0)
  | PyResult.interrupt => ([Effect.print "\n⛔ Setup interrupted by user."], 0)
  | PyResult.systemExit code => ([], code)

/-! ### Concrete scenarios used by witnesses and counterexamples -/

/-- A filesystem on which both key files for user `karl` exist. -/
def fs_both_keys : FS :=
  ⟨[(priv_key_path "/home/karl/.config/karllm" "karl", "PRIVKEY1"),
    (pub_key_path "/home/karl/.config/karllm" "karl", "PUBKEY1")]⟩

/-- A filesystem whose config file was created for username `alice`. -/
def fs_alice : FS :=
  ⟨[("/cfg/karllm/karllm.conf",
     yaml_dump_config "alice" "/cfg/karllm/alice.priv")]⟩

/-- A filesystem on which only the private key file exists. -/
def fs_only_priv : FS :=
  ⟨[(priv_key_path "/cfg/karllm" "karl", "OLDPRIV")]⟩

/-- A Linux platform on which `/etc/os-release` does not exist (for
example a minimal container), with a non-Android platform string. -/
def linux_no_os_release : Platform :=
  { os := OSFamily.linux
    osRelease := none
    platformString := "Linux-6.6.0-x86_64-with-glibc2.39"
    machine := "x86_64" }

/-- A probe on which every required tool except `openssl` resolves. -/
def which_missing_openssl : String → Bool := fun c => !(c == "openssl")

/-! ## Theorems -/

/-! ### Helper lemmas -/

theorem priv_ne_pub (config_dir uname : String) :
    priv_key_path config_dir uname ≠ pub_key_path config_dir uname := by
  intro h
  have h2 := congrArg (fun s => s.data.length) h
  have e5 : (".priv" : String).data.length = 5 := rfl
  have e4 : (".pub" : String).data.length = 4 := rfl
  simp [priv_key_path, pub_key_path, String.data_append, e5, e4] at h2

theorem interactive_loop_skips_invalid :
    ∀ (bad : List String) (good : String) (rest : List String),
      (∀ b ∈ bad, username_re_matches (pyStrip b) = false) →
      username_re_matches (pyStrip good) = true →
      interactive_loop (bad ++ good :: rest) = Except.ok (pyStrip good)
  | [], good, rest, _, hgood => by
      simp [interactive_loop, hgood]
  | b :: bs, good, rest, hbad, hgood => by
      have hb := hbad b (List.mem_cons_self b bs)
      have ih := interactive_loop_skips_invalid bs good rest
        (fun x hx => hbad x (List.mem_cons_of_mem b hx)) hgood
      simp [interactive_loop, hb, ih]

theorem indexOf_concat_self (a : String) (l : List String) (h : a ∉ l) :
    (l ++ [a]).indexOf a = l.length := by
  rw [List.indexOf_append_of_not_mem h]
  simp

/-! ### Claim C1 -/

/-- Claim C1: if both key files `{config_dir}/{uname}.priv` and
`{config_dir}/{uname}.pub` already exist, `generate_keypair` performs no
write and no subprocess invocation, leaves the filesystem (hence both
files) unchanged, and returns the two deterministic paths; a second run
with the same inputs therefore behaves identically (idempotence). -/
theorem generate_keypair_skip_when_both_exist (fs : FS)
    (config_dir uname freshPriv freshPub : String)
    (hpriv : fs.exists (priv_key_path config_dir uname) = true)
    (hpub : fs.exists (pub_key_path config_dir uname) = true) :
    generate_keypair fs config_dir uname freshPriv freshPub
      = ((priv_key_path config_dir uname, pub_key_path config_dir uname), fs,
         [Effect.print "✔ Keypair already exists."]) := by
  simp [generate_keypair, hpriv, hpub]

/-- Witness for C1 at a concrete filesystem holding both key files. -/
theorem generate_keypair_skip_when_both_exist_witness :
    generate_keypair fs_both_keys "/home/karl/.config/karllm" "karl" "PRIVKEY2" "PUBKEY2"
      = ((priv_key_path "/home/karl/.config/karllm" "karl",
          pub_key_path "/home/karl/.config/karllm" "karl"), fs_both_keys,
         [Effect.print "✔ Keypair already exists."]) :=
  generate_keypair_skip_when_both_exist fs_both_keys _ _ _ _ (by decide) (by decide)

/-! ### Claim C2 -/

/-- Claim C2: `write_config_file` is create-once.  If the config file
already exists, no write occurs and the filesystem is returned unchanged,
whatever username the current run passes in; the file is written only when
it does not yet exist. -/
theorem write_config_file_create_once (fs : FS) (config_path uname priv_key : String) :
    (fs.exists config_path = true →
      write_config_file fs config_path uname priv_key
        = (fs, [Effect.print ("✔ Config file already exists at " ++ config_path)]))
    ∧ (fs.exists config_path = false →
      (write_config_file fs config_path uname priv_key).1.read config_path
        = some (yaml_dump_config uname priv_key)) := by
  constructor
  · intro h
    simp [write_config_file, h]
  · intro h
    simp [write_config_file, h, FS.read, FS.write, List.lookup]

/-- Witness for C2: re-running with username `bob` leaves the config file
containing `alice` untouched. -/
theorem write_config_file_create_once_witness :
    write_config_file fs_alice "/cfg/karllm/karllm.conf" "bob" "/cfg/karllm/bob.priv"
      = (fs_alice,
         [Effect.print ("✔ Config file already exists at " ++ "/cfg/karllm/karllm.conf")]) :=
  (write_config_file_create_once fs_alice "/cfg/karllm/karllm.conf" "bob"
    "/cfg/karllm/bob.priv").1 (by decide)

/-! ### Claim C3 -/

/-- Counterexample to claim C3 as stated: the dependency-verification
step of `setup_clean.py` does invoke an installation action itself —
with `uv` missing, `bootstrap_dependencies` spawns
`sys.executable -m pip install uv`. -/
theorem bootstrap_dependencies_clean_installs_uv :
    Effect.runCmd ["python3", "-m", "pip", "install", "uv"]
      ∈ bootstrap_dependencies_clean "python3" (fun _ => false) := by
  simp [bootstrap_dependencies_clean]

/-- Claim C3 (amended): the required-tools verification
`assert_commands_exist` and `setup.py`'s `bootstrap_dependencies` are pure
read-only probes that never spawn a subprocess (missing tools only produce
guidance text), but `setup_clean.py`'s `bootstrap_dependencies` does
install: whenever the `uv` CLI is missing it invokes
`pip install uv` via a subprocess. -/
theorem dependency_checks_print_only :
    (∀ (which : String → Bool) (p : Platform),
       ∀ e ∈ (assert_commands_exist which p).1, e.isRunCmd = false)
    ∧ (∀ (which : String → Bool) (p : Platform),
       ∀ e ∈ (bootstrap_dependencies_py which p).1, e.isRunCmd = false)
    ∧ (∀ (pyexe : String) (which : String → Bool), which "uv" = false →
       Effect.runCmd [pyexe, "-m", "pip", "install", "uv"]
         ∈ bootstrap_dependencies_clean pyexe which) := by
  refine ⟨?_, ?_, ?_⟩
  · intro which p e he
    simp only [assert_commands_exist] at he
    rcases List.mem_map.1 he with ⟨l, _, rfl⟩
    rfl
  · intro which p e he
    simp only [bootstrap_dependencies_py] at he
    rcases List.mem_map.1 he with ⟨l, _, rfl⟩
    rfl
  · intro pyexe which h
    simp [bootstrap_dependencies_clean, h]

/-- Witness for the amended C3 at a concrete interpreter path and probe. -/
theorem dependency_checks_print_only_witness :
    Effect.runCmd ["/usr/bin/python3", "-m", "pip", "install", "uv"]
      ∈ bootstrap_dependencies_clean "/usr/bin/python3" (fun c => c == "git") :=
  dependency_checks_print_only.2.2 "/usr/bin/python3" (fun c => c == "git") (by decide)

/-! ### Claim C4 -/

/-- Counterexample to claim C4 as stated: in `setup.py`'s `main`, the
repository clone and the environment build both occur before the config
file is persisted (and even before the username is acquired). -/
theorem main_calls_setup_clones_before_config :
    main_calls_setup.indexOf "clone_repo" < main_calls_setup.indexOf "write_config_file"
    ∧ main_calls_setup.indexOf "setup_venv" < main_calls_setup.indexOf "write_config_file" := by
  decide

/-- Claim C4 (amended): `setup_clean.py`'s `main` runs dependency
verification, runtime provisioning, username acquisition, identity
generation, config persistence, repository clone and environment build in
that strict order (platform normalization runs at import time, before
`main`); `setup.py`'s `main`, however, clones the repository and builds
the environment before username acquisition, identity generation and
config persistence, and contains no runtime-provisioning step at all. -/
theorem main_call_order :
    (main_calls_setup_clean.indexOf "bootstrap_dependencies"
        < main_calls_setup_clean.indexOf "assert_commands_exist"
     ∧ main_calls_setup_clean.indexOf "assert_commands_exist"
        < main_calls_setup_clean.indexOf "ensure_python_version"
     ∧ main_calls_setup_clean.indexOf "ensure_python_version"
        < main_calls_setup_clean.indexOf "get_username"
     ∧ main_calls_setup_clean.indexOf "get_username"
        < main_calls_setup_clean.indexOf "generate_keypair"
     ∧ main_calls_setup_clean.indexOf "generate_keypair"
        < main_calls_setup_clean.indexOf "write_config_file"
     ∧ main_calls_setup_clean.indexOf "write_config_file"
        < main_calls_setup_clean.indexOf "clone_repo"
     ∧ main_calls_setup_clean.indexOf "clone_repo"
        < main_calls_setup_clean.indexOf "setup_venv"
     ∧ main_calls_setup_clean.indexOf "setup_venv"
        < main_calls_setup_clean.indexOf "install_requirements")
    ∧ (main_calls_setup.indexOf "clone_repo" < main_calls_setup.indexOf "get_username"
       ∧ "ensure_python_version" ∉ main_calls_setup) := by
  decide

/-! ### Claim C5 -/

/-- Claim C5 (code bug): with `openssl` missing on a Linux system without
`/etc/os-release`, `assert_commands_exist` raises `AttributeError`
(from `platform.platform().contains("android")`) right after printing the
missing list and the "To install them:" banner — no remediation line for
`openssl` is printed and the `sys.exit` branch is never reached, contrary
to the claimed full-remediation-then-exit behavior. -/
theorem assert_commands_exist_raises_before_remediation :
    assert_commands_exist which_missing_openssl linux_no_os_release
      = ([Effect.print "\n❌ The following required system tools are missing:",
          Effect.print "   - openssl",
          Effect.print "\n🔧 To install them:"],
         Outcome.raised "AttributeError: str object has no attribute contains") := by
  rfl

/-! ### Claim C6 -/

/-- Counterexample to claim C6 as stated: the CLI value `" alice "` does
not match `[A-Za-z0-9_]+` (it contains spaces), yet `get_username` accepts
it instead of aborting, because the value is `strip()`ped before the
regex check. -/
theorem get_username_accepts_padded_cli_value :
    username_re_matches " alice " = false
    ∧ get_username ["setup.py", "--username", " alice "] [] = Except.ok "alice" :=
  ⟨rfl, rfl⟩

/-- Claim C6 (amended): acceptance is decided on the whitespace-stripped
input.  A CLI-supplied value whose `strip()` matches `[A-Za-z0-9_]+` is
accepted and its stripped form returned; one whose `strip()` does not
match aborts immediately with no retry.  In interactive mode, inputs whose
`strip()` does not match are re-prompted past, and the first input whose
`strip()` matches is accepted and returned stripped. -/
theorem get_username_strip_validation :
    (∀ (v : String) (stdin : List String),
      get_username ["setup.py", "--username", v] stdin =
        if username_re_matches (pyStrip v) then Except.ok (pyStrip v)
        else Except.error "✘ Invalid username provided via CLI.")
    ∧ (∀ (bad : List String) (good : String) (rest : List String),
      (∀ b ∈ bad, username_re_matches (pyStrip b) = false) →
      username_re_matches (pyStrip good) = true →
      get_username ["setup.py"] (bad ++ good :: rest) = Except.ok (pyStrip good)) := by
  constructor
  · intro v stdin
    rfl
  · intro bad good rest hbad hgood
    exact interactive_loop_skips_invalid bad good rest hbad hgood

/-- Witness for the amended C6: one invalid interactive attempt is
re-prompted past, and the following valid input is accepted. -/
theorem get_username_strip_validation_witness :
    get_username ["setup.py"] ["bad input!", "alice_1"] = Except.ok "alice_1" :=
  get_username_strip_validation.2 ["bad input!"] "alice_1" [] (by decide) (by decide)

/-! ### Claim C7 -/

/-- Claim C7 (code bug): platform detection is not total.  On a Linux
system whose `/etc/os-release` is absent, `get_linux_package_manager`
raises `AttributeError` (Python `str` has no method `contains`) instead of
returning the sentinel `"unknown"`. -/
theorem get_linux_package_manager_raises_without_os_release :
    get_linux_package_manager linux_no_os_release
      = Except.error "AttributeError: str object has no attribute contains" := by
  rfl

/-! ### Claim C8 -/

/-- Claim C8: when the two key files do not both exist (in particular when
exactly one of them does), `generate_keypair` regenerates both files,
overwriting the one already present with freshly generated content, via
the two `openssl` invocations. -/
theorem generate_keypair_regen_when_one_missing (fs : FS)
    (config_dir uname freshPriv freshPub : String)
    (h : fs.exists (priv_key_path config_dir uname)
          ≠ fs.exists (pub_key_path config_dir uname)) :
    (generate_keypair fs config_dir uname freshPriv freshPub).2.1.read
        (priv_key_path config_dir uname) = some freshPriv
    ∧ (generate_keypair fs config_dir uname freshPriv freshPub).2.1.read
        (pub_key_path config_dir uname) = some freshPub
    ∧ (generate_keypair fs config_dir uname freshPriv freshPub).2.2
        = [Effect.runCmd ["openssl", "genpkey", "-algorithm", "ED25519", "-out",
             priv_key_path config_dir uname],
           Effect.runCmd ["openssl", "pkey", "-in", priv_key_path config_dir uname,
             "-pubout", "-out", pub_key_path config_dir uname],
           Effect.print ("✔ ED25519 keypair generated: "
             ++ priv_key_path config_dir uname ++ ", " ++ pub_key_path config_dir uname)] := by
  have hguard : (fs.exists (priv_key_path config_dir uname)
      && fs.exists (pub_key_path config_dir uname)) = false := by
    cases h1 : fs.exists (priv_key_path config_dir uname) <;>
      cases h2 : fs.exists (pub_key_path config_dir uname) <;> simp_all
  have hne : (priv_key_path config_dir uname == pub_key_path config_dir uname) = false := by
    simp [beq_eq_false_iff_ne]
    exact priv_ne_pub config_dir uname
  refine ⟨?_, ?_, ?_⟩ <;>
    simp [generate_keypair, hguard, FS.read, FS.write, List.lookup, hne]

/-- Witness for C8: with only the private key present, both files end up
holding the freshly generated content (the stale private key is
overwritten). -/
theorem generate_keypair_regen_when_one_missing_witness :
    (generate_keypair fs_only_priv "/cfg/karllm" "karl" "NEWPRIV" "NEWPUB").2.1.read
        (priv_key_path "/cfg/karllm" "karl") = some "NEWPRIV"
    ∧ (generate_keypair fs_only_priv "/cfg/karllm" "karl" "NEWPRIV" "NEWPUB").2.1.read
        (pub_key_path "/cfg/karllm" "karl") = some "NEWPUB" := by
  have h := generate_keypair_regen_when_one_missing fs_only_priv "/cfg/karllm" "karl"
    "NEWPRIV" "NEWPUB" (by decide)
  exact ⟨h.1, h.2.1⟩

/-! ### Claim C9 -/

/-- Claim C9: a `KeyboardInterrupt` propagating out of `main` is caught by
the top-level handler, which prints the interruption message; the process
then falls off the end of the script and exits with status code 0. -/
theorem main_guard_interrupt_exits_zero :
    main_guard PyResult.interrupt
      = ([Effect.print "\n⛔ Setup interrupted by user."], 0) := rfl

/-! ### Claim C10 -/

/-- Claim C10: when `--username` is the last command-line argument with no
value after it, `get_username` neither aborts nor errors — it falls
through to the interactive prompt exactly as if the flag were absent. -/
theorem get_username_flag_last_falls_back (pre stdin : List String)
    (h : "--username" ∉ pre) :
    get_username (pre ++ ["--username"]) stdin = interactive_loop stdin := by
  have hc : (pre ++ ["--username"]).contains "--username" = true := by
    simp [List.contains, List.elem_eq_mem]
  have hidx : (pre ++ ["--username"]).indexOf "--username" = pre.length :=
    indexOf_concat_self _ _ h
  simp [get_username, hc, hidx]

/-- Witness for C10: `["setup.py", "--username"]` with interactive input
`karl` yields `karl` from the prompt. -/
theorem get_username_flag_last_falls_back_witness :
    get_username ["setup.py", "--username"] ["karl"] = Except.ok "karl" :=
  Eq.trans (get_username_flag_last_falls_back ["setup.py"] ["karl"] (by decide)) rfl

end KarllmSetup
